import Mathlib

/-!
Shallow embedding of the flying-phase weather system
(`scripts/weather_elements.py` and `scripts/flyingphase.py`).

Modelling conventions:
* Timestamps are abstract natural numbers (`datetime` values are only ever
  compared with `<`/`>`, so any linearly ordered carrier is faithful).
* Python dict values for the four element types become the inductive
  `WValue`; the `type` string of an element is derived (`WValue.kind`),
  matching the invariant maintained by every parser in the source.
* Python `float` trigonometry is modelled over the reals (`Real.sin`,
  `Real.cos`); those definitions are `noncomputable`, everything else is
  executable.
* Display-only fields (`raw` text of an element, and the `conditions`,
  `reasons`, `restrictions` entries of a decision) are omitted: nothing in
  the pipeline reads them back.
-/

/-- Wind value dict: direction in degrees (`none` = variable/VRB), sustained
speed in knots, optional gust. -/
structure WindVal where
  direction : Option ℕ
  speed : ℕ
  gust : Option ℕ
deriving DecidableEq

/-- Cloud value dict: coverage code, height above ground in feet, and the
cumulonimbus flag. -/
structure CloudLayer where
  coverage : String
  height_ft : ℕ
  cb : Bool
deriving DecidableEq

/-- Type-specific payload of a `WeatherElement` (`weather_elements.py`,
`WeatherElement.value`): visibility in meters, wind, cloud, or a weather
phenomenon code. -/
inductive WValue where
  | vis (meters : ℕ)
  | wind (w : WindVal)
  | cloud (c : CloudLayer)
  | wx (code : String)
deriving DecidableEq

/-- The `type` string of an element, as stored by the Python parsers. -/
def WValue.kind : WValue → String
  | .vis _ => "visibility"
  | .wind _ => "wind"
  | .cloud _ => "cloud"
  | .wx _ => "weather"

/-- A single weather data point with provenance and validity
(`weather_elements.py`, `WeatherElement`).  `valid_from = none` means the
element extends to the unbounded past, `valid_to = none` to the unbounded
future. -/
structure WeatherElement where
  value : WValue
  source : String
  valid_from : Option ℕ := none
  valid_to : Option ℕ := none
deriving DecidableEq

/-- First exclusion test of `overlaps_window`: the element has a closed start
strictly after the (closed) window end. -/
def starts_after_end (valid_from window_end : Option ℕ) : Bool :=
  match window_end, valid_from with
  | some e, some vf => decide (e < vf)
  | _, _ => false

/-- Second exclusion test of `overlaps_window`: the element has a closed end
strictly before the (closed) window start. -/
def ends_before_start (valid_to window_start : Option ℕ) : Bool :=
  match window_start, valid_to with
  | some s, some vt => decide (vt < s)
  | _, _ => false

/-- `WeatherElement.overlaps_window` from `weather_elements.py`: check if the
element's validity overlaps the window `[start, stop]`. -/
def WeatherElement.overlaps_window (el : WeatherElement)
    (start stop : Option ℕ) : Bool :=
  if starts_after_end el.valid_from stop then false
  else if ends_before_start el.valid_to start then false
  else true

/-- Collection of weather elements (`weather_elements.py`,
`WeatherCollection`). -/
structure WeatherCollection where
  elements : List WeatherElement
deriving DecidableEq

/-- Coverage ranking for cloud conflict resolution (`COVERAGE_RANK`;
note `OVC` and `BKN` share rank 3, unknown coverages get the dict-default
0). -/
def COVERAGE_RANK (cov : String) : ℕ :=
  if cov = "FEW" then 1
  else if cov = "SCT" then 2
  else if cov = "BKN" then 3
  else if cov = "OVC" then 3
  else 0

/-- Sources consulted for the immediate phase decision (`PHASE_SOURCES`). -/
def PHASE_SOURCES : List String := ["METAR", "WARNING", "PIREP"]

/-- Sources consulted for alternate/divert decisions (`ALTERNATE_SOURCES`). -/
def ALTERNATE_SOURCES : List String := ["METAR", "TAF", "WARNING", "PIREP"]

/-- `WeatherCollection.filter`: a fresh collection keeping the elements that
overlap the window and (when a source set is supplied) whose source is in
that set.  Immutability of the receiver is by construction in this model. -/
def WeatherCollection.filter (c : WeatherCollection)
    (window_start window_end : Option ℕ) (sources : Option (List String)) :
    WeatherCollection :=
  ⟨c.elements.filter (fun el =>
    el.overlaps_window window_start window_end &&
    match sources with
    | none => true
    | some ss => decide (el.source ∈ ss))⟩

/-- The `meters` values of the visibility elements of a collection. -/
def WeatherCollection.visValues (c : WeatherCollection) : List ℕ :=
  c.elements.filterMap (fun el =>
    match el.value with | .vis m => some m | _ => none)

/-- The wind values of the wind elements of a collection. -/
def WeatherCollection.windValues (c : WeatherCollection) : List WindVal :=
  c.elements.filterMap (fun el =>
    match el.value with | .wind w => some w | _ => none)

/-- The cloud values of the cloud elements of a collection. -/
def WeatherCollection.cloudValues (c : WeatherCollection) : List CloudLayer :=
  c.elements.filterMap (fun el =>
    match el.value with | .cloud cl => some cl | _ => none)

/-- The codes of the weather elements of a collection (the Python set
`result['weather']` is modelled as the list of codes; only membership is
ever consulted downstream). -/
def WeatherCollection.weatherCodes (c : WeatherCollection) : List String :=
  c.elements.filterMap (fun el =>
    match el.value with | .wx code => some code | _ => none)

/-- Effective wind speed `gust or speed` (Python truthiness: a missing gust
or a gust of 0 falls back to the sustained speed). -/
def WindVal.effective (w : WindVal) : ℕ :=
  match w.gust with
  | some g => if g = 0 then w.speed else g
  | none => w.speed

/-- Shortest-difference angle of `calculate_wind_components`
(`flyingphase.py`): `|d − rh|`, folded to `360 − |d − rh|` when above 180. -/
def angle_diff (wind_dir runway_heading : ℤ) : ℤ :=
  if 180 < |wind_dir - runway_heading| then 360 - |wind_dir - runway_heading|
  else |wind_dir - runway_heading|

/-- `math.radians`. -/
noncomputable def radians (deg : ℤ) : ℝ := (deg : ℝ) * Real.pi / 180

/-- `calculate_wind_components` (`flyingphase.py`): returns
`(crosswind, headwind)`; headwind negative means tailwind. -/
noncomputable def calculate_wind_components
    (wind_dir wind_speed runway_heading : ℤ) : ℝ × ℝ :=
  (|(wind_speed : ℝ) * Real.sin (radians (angle_diff wind_dir runway_heading))|,
   (wind_speed : ℝ) * Real.cos (radians (angle_diff wind_dir runway_heading)))

/-- Crosswind of one wind element in `resolve` (variable wind counts as full
crosswind). -/
noncomputable def xwind_for (w : WindVal) (runway_heading : ℕ) : ℝ :=
  match w.direction with
  | some d => (calculate_wind_components (d : ℤ) (w.effective : ℤ) (runway_heading : ℤ)).1
  | none => (w.effective : ℝ)

open Classical in
/-- Wind conflict resolution of `WeatherCollection.resolve`: with a runway
heading the element with the largest crosswind wins (strict improvement over
a running worst initialised to `(None, -1)`), otherwise the first element
with maximal effective speed wins (Python `max`). -/
noncomputable def resolveWind (ws : List WindVal) (runway_heading : Option ℕ) :
    Option WindVal :=
  match ws with
  | [] => none
  | w0 :: rest =>
    match runway_heading with
    | some rh =>
      ((w0 :: rest).foldl
        (fun acc w =>
          if acc.2 < xwind_for w rh then (some w, xwind_for w rh) else acc)
        ((none : Option WindVal), (-1 : ℝ))).1
    | none =>
      some (rest.foldl
        (fun best w => if best.effective < w.effective then w else best) w0)

/-- Replace the value stored under key `h` of the association list
(Python `by_height[h] = value` on an existing key keeps the key's
position). -/
def update_at (m : List (ℕ × CloudLayer)) (h : ℕ) (v : CloudLayer) :
    List (ℕ × CloudLayer) :=
  m.map (fun p => if p.1 = h then (h, v) else p)

/-- One iteration of the cloud-merge loop of `resolve`: insert under a fresh
height, or replace the stored layer only when the new coverage rank is
strictly greater. -/
def cloud_step (m : List (ℕ × CloudLayer)) (c : CloudLayer) :
    List (ℕ × CloudLayer) :=
  match m.find? (fun p => p.1 == c.height_ft) with
  | none => m ++ [(c.height_ft, c)]
  | some p =>
    if COVERAGE_RANK p.2.coverage < COVERAGE_RANK c.coverage then
      update_at m c.height_ft c
    else m

/-- The `by_height` dict of `resolve`, as an insertion-ordered association
list. -/
def by_height (cs : List CloudLayer) : List (ℕ × CloudLayer) :=
  cs.foldl cloud_step []

/-- Height order on cloud layers (the `key=lambda c: c['height_ft']` of the
final `sorted`). -/
def height_le (a b : CloudLayer) : Prop := a.height_ft ≤ b.height_ft

instance : DecidableRel height_le := fun a b => Nat.decLe a.height_ft b.height_ft

instance : IsTotal CloudLayer height_le :=
  ⟨fun a b => Nat.le_total a.height_ft b.height_ft⟩

instance : IsTrans CloudLayer height_le := ⟨fun _ _ _ => Nat.le_trans⟩

/-- Cloud resolution of `WeatherCollection.resolve`: merge by exact height
with strict-rank replacement, then sort ascending by height (Python `sorted`
is stable; the heights in `by_height` are distinct, so any stable sort
models it — we use insertion sort). -/
def resolveClouds (cs : List CloudLayer) : List CloudLayer :=
  List.insertionSort height_le ((by_height cs).map Prod.snd)

/-- The CB test applied to each weather code in `resolve`:
`code in ('CB', 'TS') or code.startswith('TS')`. -/
def is_cb_code (code : String) : Bool :=
  code == "CB" || code == "TS" || code.startsWith "TS"

/-- Result of `WeatherCollection.resolve` (the returned dict). -/
structure Resolved where
  visibility_m : Option ℕ
  clouds : List CloudLayer
  wind : Option WindVal
  weather : List String
  has_cb : Bool

/-- `WeatherCollection.resolve`: worst-case conditions across all elements —
lowest visibility, worst wind, merged cloud layers, union of weather codes,
and the derived CB flag (a surviving CB cloud layer or a CB-like weather
code). -/
noncomputable def WeatherCollection.resolve (c : WeatherCollection)
    (runway_heading : Option ℕ) : Resolved :=
  { visibility_m :=
      match c.visValues with
      | [] => none
      | v :: rest => some (rest.foldl min v),
    clouds := resolveClouds c.cloudValues,
    wind := resolveWind c.windValues runway_heading,
    weather := c.weatherCodes,
    has_cb := (resolveClouds c.cloudValues).any (fun l => l.cb) ||
      c.weatherCodes.any is_cb_code }

/-- Approach minimums record (`app['minimums']`, with the `.get` defaults
800 m / 200 ft of `determine_phase`). -/
structure ApproachMinimums where
  visibility_m : ℕ := 800
  ceiling_ft : ℕ := 200
deriving DecidableEq

/-- One published approach of the airfield configuration. -/
structure Approach where
  minimums : ApproachMinimums
deriving DecidableEq

/-- The airfield configuration entry consulted by `determine_phase`
(`airfield_data['OEKF']`, with the `.get` defaults elevation 0 /
no approaches). -/
structure AirfieldData where
  elevation_ft : ℤ := 0
  approaches : List Approach := []
deriving DecidableEq

/-- Effective wind of the resolved snapshot in `determine_phase`
(no wind element at all counts as 0). -/
def effective_wind_of (w : Option WindVal) : ℕ :=
  match w with
  | none => 0
  | some wv => wv.effective

/-- Crosswind computed by `determine_phase`: via
`calculate_wind_components` on the effective speed when a direction is
known, the full effective speed for variable wind, 0 without wind. -/
noncomputable def crosswind_of (w : Option WindVal) (runway_heading : ℕ) : ℝ :=
  match w with
  | none => 0
  | some wv =>
    match wv.direction with
    | some d =>
      (calculate_wind_components (d : ℤ) (wv.effective : ℤ) (runway_heading : ℤ)).1
    | none => (wv.effective : ℝ)

/-- Headwind computed by `determine_phase` (0 for variable wind and for no
wind). -/
noncomputable def headwind_of (w : Option WindVal) (runway_heading : ℕ) : ℝ :=
  match w with
  | none => 0
  | some wv =>
    match wv.direction with
    | some d =>
      (calculate_wind_components (d : ℤ) (wv.effective : ℤ) (runway_heading : ℤ)).2
    | none => 0

open Classical in
/-- `tailwind = abs(headwind) if headwind < 0 else 0`. -/
noncomputable def tailwind_of (w : Option WindVal) (runway_heading : ℕ) : ℝ :=
  if headwind_of w runway_heading < 0 then |headwind_of w runway_heading| else 0

/-- Height of the lowest reported cloud layer (first loop of the cloud
helpers in `determine_phase`). -/
def lowest_cloud_of (clouds : List CloudLayer) : Option ℕ :=
  clouds.foldl
    (fun acc c =>
      match acc with
      | none => some c.height_ft
      | some l => if c.height_ft < l then some c.height_ft else some l)
    none

/-- Ceiling: lowest `BKN`/`OVC` layer. -/
def ceiling_of (clouds : List CloudLayer) : Option ℕ :=
  clouds.foldl
    (fun acc c =>
      if c.coverage = "BKN" ∨ c.coverage = "OVC" then
        match acc with
        | none => some c.height_ft
        | some l => if c.height_ft < l then some c.height_ft else some l
      else acc)
    none

/-- `lowest_cloud_for_phase`: under CAVOK with no reported cloud, the CAVOK
guarantee height (5000 ft AGL) stands in as the lowest observable cloud. -/
def lowest_cloud_for_phase (clouds : List CloudLayer) (cavok : Bool) :
    Option ℤ :=
  if cavok && (lowest_cloud_of clouds).isNone then some 5000
  else (lowest_cloud_of clouds).map (fun h => (h : ℤ))

/-- `vis_km = vis_m / 1000 if vis_m else None` (Python truthiness: a
reported 0 m also yields `None`). -/
noncomputable def vis_km_of (vis_m : Option ℕ) : Option ℝ :=
  match vis_m with
  | some v => if v = 0 then none else some ((v : ℝ) / 1000)
  | none => none

open Classical in
/-- The `vis_km is not None and vis_km >= k` criteria of the phase tiers. -/
noncomputable def vis_at_least (vis_m : Option ℕ) (k : ℝ) : Bool :=
  match vis_km_of vis_m with
  | none => false
  | some vk => decide (k ≤ vk)

/-- The "no cloud below threshold" criterion:
`lowest_cloud_for_phase is None or lowest_cloud_for_phase >= threshold`. -/
def cloud_free_below (lcp : Option ℤ) (threshold_agl : ℤ) : Bool :=
  match lcp with
  | none => true
  | some l => decide (threshold_agl ≤ l)

/-- The UNRESTRICTED coverage loop: fails on any layer below the threshold
or on any `SCT`/`BKN`/`OVC` layer (first hit breaks). -/
def no_sct_bkn_ovc_loop (threshold_agl : ℤ) : List CloudLayer → Bool
  | [] => true
  | c :: rest =>
    if (c.height_ft : ℤ) < threshold_agl then false
    else if c.coverage = "SCT" ∨ c.coverage = "BKN" ∨ c.coverage = "OVC" then false
    else no_sct_bkn_ovc_loop threshold_agl rest

/-- The UNRESTRICTED maximum-coverage criterion, including the CAVOK
override: CAVOK with no reported cloud cannot vouch for a threshold above
the 5000 ft AGL guarantee. -/
def max_few_ok (clouds : List CloudLayer) (cavok : Bool)
    (threshold_agl : ℤ) : Bool :=
  if cavok && clouds.isEmpty && decide (5000 < threshold_agl) then false
  else no_sct_bkn_ovc_loop threshold_agl clouds

/-- The RESTRICTED coverage loop: fails on any layer below the threshold or
on any `BKN`/`OVC` layer. -/
def no_bkn_ovc_loop (threshold_agl : ℤ) : List CloudLayer → Bool
  | [] => true
  | c :: rest =>
    if (c.height_ft : ℤ) < threshold_agl then false
    else if c.coverage = "BKN" ∨ c.coverage = "OVC" then false
    else no_bkn_ovc_loop threshold_agl rest

/-- IFR minimums folded over the configured approaches, from the initial
2400 m / 500 ft (`min_ceiling` adds 300 ft to each approach ceiling). -/
def ifr_minimums (approaches : List Approach) : ℕ × ℕ :=
  approaches.foldl
    (fun acc app =>
      (min acc.1 app.minimums.visibility_m, min acc.2 (app.minimums.ceiling_ft + 300)))
    (2400, 500)

open Classical in
/-- The UNRESTRICTED tier criteria of `determine_phase`, in source order. -/
noncomputable def unrestricted_checks (resolved : Resolved)
    (runway_heading : ℕ) (airfield_data : AirfieldData) (cavok : Bool) :
    List (String × Bool) :=
  [("Vis >= 8km", vis_at_least resolved.visibility_m 8),
   ("No cloud < 8000ft AMSL",
     cloud_free_below (lowest_cloud_for_phase resolved.clouds cavok)
       (8000 - airfield_data.elevation_ft)),
   ("Max FEW above 8000ft AMSL",
     max_few_ok resolved.clouds cavok (8000 - airfield_data.elevation_ft)),
   ("Total wind <= 25kt", decide (effective_wind_of resolved.wind ≤ 25)),
   ("Crosswind <= 15kt", decide (crosswind_of resolved.wind runway_heading ≤ 15)),
   ("Tailwind <= 5kt", decide (tailwind_of resolved.wind runway_heading ≤ 5))]

open Classical in
/-- The RESTRICTED tier criteria, in source order. -/
noncomputable def restricted_checks (resolved : Resolved)
    (runway_heading : ℕ) (airfield_data : AirfieldData) (cavok : Bool) :
    List (String × Bool) :=
  [("Vis >= 8km", vis_at_least resolved.visibility_m 8),
   ("No cloud < 6000ft AMSL",
     cloud_free_below (lowest_cloud_for_phase resolved.clouds cavok)
       (6000 - airfield_data.elevation_ft)),
   ("Max SCT above 6000ft AMSL",
     no_bkn_ovc_loop (6000 - airfield_data.elevation_ft) resolved.clouds),
   ("Total wind <= 25kt", decide (effective_wind_of resolved.wind ≤ 25)),
   ("Crosswind <= 15kt", decide (crosswind_of resolved.wind runway_heading ≤ 15)),
   ("Tailwind <= 5kt", decide (tailwind_of resolved.wind runway_heading ≤ 5))]

open Classical in
/-- The FS VFR tier criteria, in source order. -/
noncomputable def fs_vfr_checks (resolved : Resolved)
    (runway_heading : ℕ) (airfield_data : AirfieldData) (cavok : Bool) :
    List (String × Bool) :=
  [("Vis >= 5km", vis_at_least resolved.visibility_m 5),
   ("No cloud < 5000ft AMSL",
     cloud_free_below (lowest_cloud_for_phase resolved.clouds cavok)
       (5000 - airfield_data.elevation_ft)),
   ("Total wind <= 25kt", decide (effective_wind_of resolved.wind ≤ 25)),
   ("Crosswind <= 15kt", decide (crosswind_of resolved.wind runway_heading ≤ 15)),
   ("Tailwind <= 5kt", decide (tailwind_of resolved.wind runway_heading ≤ 5))]

open Classical in
/-- The VFR tier criteria, in source order. -/
noncomputable def vfr_checks (resolved : Resolved) (runway_heading : ℕ) :
    List (String × Bool) :=
  [("Vis >= 5km", vis_at_least resolved.visibility_m 5),
   ("Ceiling >= 1500ft",
     match ceiling_of resolved.clouds with
     | none => true
     | some cl => decide (1500 ≤ cl)),
   ("Total wind <= 30kt", decide (effective_wind_of resolved.wind ≤ 30)),
   ("Crosswind <= 24kt", decide (crosswind_of resolved.wind runway_heading ≤ 24)),
   ("Tailwind <= 10kt", decide (tailwind_of resolved.wind runway_heading ≤ 10))]

open Classical in
/-- The IFR tier criteria, in source order. -/
noncomputable def ifr_checks (resolved : Resolved) (runway_heading : ℕ)
    (airfield_data : AirfieldData) : List (String × Bool) :=
  [("Vis >= IFR minimum",
     match resolved.visibility_m with
     | none => false
     | some v => decide ((ifr_minimums airfield_data.approaches).1 ≤ v)),
   ("Ceiling >= IFR minimum",
     match ceiling_of resolved.clouds with
     | none => true
     | some cl => decide ((ifr_minimums airfield_data.approaches).2 ≤ cl)),
   ("Total wind <= 30kt", decide (effective_wind_of resolved.wind ≤ 30)),
   ("Crosswind <= 24kt", decide (crosswind_of resolved.wind runway_heading ≤ 24)),
   ("Tailwind <= 10kt", decide (tailwind_of resolved.wind runway_heading ≤ 10))]

/-- Output of `determine_phase`; the display-only `conditions`, `reasons`
and `restrictions` entries are omitted (nothing downstream of the claims
reads them), `checks` keeps the insertion order of the Python dict. -/
structure Decision where
  phase : String
  checks : List (String × List (String × Bool))
deriving DecidableEq

/-- The HOLD temperature gate `temp is not None and temp > 50`. -/
def temp_exceeds_50 (temp : Option ℤ) : Bool :=
  match temp with
  | some t => decide (50 < t)
  | none => false

open Classical in
/-- `determine_phase` (`flyingphase.py`): short-circuit RECALL and HOLD
gates, then the tier cascade UNRESTRICTED → RESTRICTED → FS VFR → VFR → IFR,
falling through to HOLD.  Each evaluated tier's criteria are recorded in
`checks`. -/
noncomputable def determine_phase (resolved : Resolved) (runway_heading : ℕ)
    (airfield_data : AirfieldData) (temp : Option ℤ := none)
    (cavok : Bool := false) : Decision :=
  if 35 < effective_wind_of resolved.wind then
    { phase := "RECALL", checks := [] }
  else if resolved.has_cb then
    { phase := "RECALL", checks := [] }
  else if temp_exceeds_50 temp then
    { phase := "HOLD", checks := [] }
  else if 24 < crosswind_of resolved.wind runway_heading then
    { phase := "HOLD", checks := [] }
  else if (unrestricted_checks resolved runway_heading airfield_data cavok).all
      (fun ch => ch.2) then
    { phase := "UNRESTRICTED",
      checks := [("UNRESTRICTED",
        unrestricted_checks resolved runway_heading airfield_data cavok)] }
  else if (restricted_checks resolved runway_heading airfield_data cavok).all
      (fun ch => ch.2) then
    { phase := "RESTRICTED",
      checks := [("UNRESTRICTED",
        unrestricted_checks resolved runway_heading airfield_data cavok),
        ("RESTRICTED",
        restricted_checks resolved runway_heading airfield_data cavok)] }
  else if (fs_vfr_checks resolved runway_heading airfield_data cavok).all
      (fun ch => ch.2) then
    { phase := "FS VFR",
      checks := [("UNRESTRICTED",
        unrestricted_checks resolved runway_heading airfield_data cavok),
        ("RESTRICTED",
        restricted_checks resolved runway_heading airfield_data cavok),
        ("FS VFR", fs_vfr_checks resolved runway_heading airfield_data cavok)] }
  else if (vfr_checks resolved runway_heading).all (fun ch => ch.2) then
    { phase := "VFR",
      checks := [("UNRESTRICTED",
        unrestricted_checks resolved runway_heading airfield_data cavok),
        ("RESTRICTED",
        restricted_checks resolved runway_heading airfield_data cavok),
        ("FS VFR", fs_vfr_checks resolved runway_heading airfield_data cavok),
        ("VFR", vfr_checks resolved runway_heading)] }
  else if (ifr_checks resolved runway_heading airfield_data).all
      (fun ch => ch.2) then
    { phase := "IFR",
      checks := [("UNRESTRICTED",
        unrestricted_checks resolved runway_heading airfield_data cavok),
        ("RESTRICTED",
        restricted_checks resolved runway_heading airfield_data cavok),
        ("FS VFR", fs_vfr_checks resolved runway_heading airfield_data cavok),
        ("VFR", vfr_checks resolved runway_heading),
        ("IFR", ifr_checks resolved runway_heading airfield_data)] }
  else
    { phase := "HOLD",
      checks := [("UNRESTRICTED",
        unrestricted_checks resolved runway_heading airfield_data cavok),
        ("RESTRICTED",
        restricted_checks resolved runway_heading airfield_data cavok),
        ("FS VFR", fs_vfr_checks resolved runway_heading airfield_data cavok),
        ("VFR", vfr_checks resolved runway_heading),
        ("IFR", ifr_checks resolved runway_heading airfield_data)] }

/-- One cloud entry of a parsed TAF period (`_parse_period`: `coverage`,
`height_ft`, and the optional `CB`/`TCU` type suffix). -/
structure PCloud where
  coverage : String
  height_ft : ℕ
  cloud_type : Option String
deriving DecidableEq

/-- A parsed TAF period dict (`TAFParser._parse_period`): validity hours
(0–24 UTC), wind, visibility, clouds, weather codes and the CB flag. -/
structure TafPeriod where
  valid_from_utc : Option ℕ := none
  valid_to_utc : Option ℕ := none
  wind_dir : Option ℕ := none
  wind_speed : Option ℕ := none
  wind_gust : Option ℕ := none
  visibility_m : Option ℕ := none
  clouds : List PCloud := []
  weather : List String := []
  has_cb : Bool := false
deriving DecidableEq

/-- A parsed TAF (`TAFParser`): base period plus BECMG/TEMPO/FM change
groups in textual order. -/
structure TafData where
  base_period : Option TafPeriod := none
  becmg_periods : List TafPeriod := []
  tempo_periods : List TafPeriod := []
  fm_periods : List TafPeriod := []
deriving DecidableEq

/-- One entry of the `groups` list built by `parse_taf_elements`. -/
structure TafGroup where
  kind : String
  period : TafPeriod
  from_utc : Option ℕ
  to_utc : Option ℕ
deriving DecidableEq

/-- The unsorted `groups` list of `parse_taf_elements`: BASE, then BECMG,
TEMPO and FM groups. -/
def taf_groups (taf : TafData) : List TafGroup :=
  (match taf.base_period with
   | some p => [⟨"BASE", p, p.valid_from_utc, p.valid_to_utc⟩]
   | none => []) ++
  taf.becmg_periods.map (fun p => ⟨"BECMG", p, p.valid_from_utc, p.valid_to_utc⟩) ++
  taf.tempo_periods.map (fun p => ⟨"TEMPO", p, p.valid_from_utc, p.valid_to_utc⟩) ++
  taf.fm_periods.map (fun p => ⟨"FM", p, p.valid_from_utc, p.valid_to_utc⟩)

/-- Sort key of `groups.sort`: the start hour, with the sentinel −1 for a
missing start. -/
def group_key (g : TafGroup) : ℤ :=
  match g.from_utc with
  | some h => (h : ℤ)
  | none => -1

/-- Start-hour order on groups. -/
def group_le (a b : TafGroup) : Prop := group_key a ≤ group_key b

instance : DecidableRel group_le := fun a b => Int.decLe (group_key a) (group_key b)

instance : IsTotal TafGroup group_le := ⟨fun a b => Int.le_total (group_key a) (group_key b)⟩

instance : IsTrans TafGroup group_le :=
  ⟨fun _ _ _ hab hbc => Int.le_trans hab hbc⟩

/-- The chronologically sorted `groups` list (Python's stable `sort` by
start hour, modelled by the stable insertion sort). -/
def sorted_groups (taf : TafData) : List TafGroup :=
  List.insertionSort group_le (taf_groups taf)

/-- `_build_datetime(ref_time, None, hour)`: with no day given the result is
the reference day at `hour % 24`, so a same-day timestamp is faithfully
modelled by the hour itself (the month-wrap branch is unreachable when the
day is taken from the reference). -/
def _build_datetime (hour : ℕ) : ℕ := hour % 24

/-- `_extract_period_elements`: the `(type, value)` pairs emitted from a TAF
period, in source order — visibility, wind, clouds, then `CB`/weather
codes. -/
def _extract_period_elements (p : TafPeriod) : List WValue :=
  (match p.visibility_m with
   | some v => [WValue.vis v]
   | none => []) ++
  (match p.wind_speed with
   | some s => [WValue.wind ⟨p.wind_dir, s, p.wind_gust⟩]
   | none => []) ++
  p.clouds.map (fun cl =>
    WValue.cloud ⟨cl.coverage, cl.height_ft, cl.cloud_type == some "CB"⟩) ++
  (if p.has_cb then [WValue.wx "CB"] else []) ++
  (p.weather.filter (fun w => w ≠ "CB")).map WValue.wx

/-- The `has_match` test of `_lookahead_end_time`: does the period re-state
a value of the given element kind? -/
def restates (p : TafPeriod) (el_type : String) : Bool :=
  if el_type = "visibility" then p.visibility_m.isSome
  else if el_type = "wind" then p.wind_speed.isSome
  else if el_type = "cloud" then !p.clouds.isEmpty
  else if el_type = "weather" then p.has_cb || !p.weather.isEmpty
  else false

/-- The scan loop of `_lookahead_end_time` over the remaining groups: skip
TEMPO; at the first remaining group that re-states the kind, return the
BECMG transition-end hour or the FM start hour (open-ended when that hour is
missing, and also when that group is of any other kind, e.g. BASE). -/
def lookahead_loop (el_type : String) : List TafGroup → Option ℕ
  | [] => none
  | g :: rest =>
    if g.kind = "TEMPO" then lookahead_loop el_type rest
    else if restates g.period el_type then
      if g.kind = "BECMG" then g.to_utc.map _build_datetime
      else if g.kind = "FM" then g.from_utc.map _build_datetime
      else none
    else lookahead_loop el_type rest

/-- `_lookahead_end_time(groups, current_idx, el_type, ref_time)`: scan the
groups after `current_idx`. -/
def _lookahead_end_time (groups : List TafGroup) (current_idx : ℕ)
    (el_type : String) : Option ℕ :=
  lookahead_loop el_type (groups.drop (current_idx + 1))

/-- `parse_taf_elements`: every group's extracted values become TAF-sourced
elements; TEMPO elements get the group's fixed window, BASE elements an open
start, and BASE/BECMG/FM elements get their end from the lookahead. -/
def parse_taf_elements (taf : TafData) : List WeatherElement :=
  (sorted_groups taf).enum.flatMap (fun gi_g =>
    (_extract_period_elements gi_g.2.period).map (fun v =>
      if gi_g.2.kind = "TEMPO" then
        { value := v, source := "TAF",
          valid_from := gi_g.2.from_utc.map _build_datetime,
          valid_to := gi_g.2.to_utc.map _build_datetime }
      else
        { value := v, source := "TAF",
          valid_from :=
            if gi_g.2.kind = "BASE" then none
            else gi_g.2.from_utc.map _build_datetime,
          valid_to := _lookahead_end_time (sorted_groups taf) gi_g.1 v.kind }))

/-- End-of-validity lookahead as the specification words it, amended to the
code's behaviour: among the later groups with TEMPO skipped, the first one
that re-states the kind decides — the BECMG transition-end hour, the FM
start hour, and open-ended validity when that group is the BASE group
(reachable only when a change group's start hour precedes the base's). -/
def spec_end_time (later : List TafGroup) (el_type : String) : Option ℕ :=
  match (later.filter (fun g => g.kind ≠ "TEMPO")).find?
      (fun g => restates g.period el_type) with
  | some g =>
    if g.kind = "BECMG" then g.to_utc.map _build_datetime
    else if g.kind = "FM" then g.from_utc.map _build_datetime
    else none
  | none => none

/-- End-of-validity lookahead exactly as the claim words it: the first later
group in the chronologically ordered list *of BECMG/FM groups* that
re-states the kind (a later BASE group is passed over, not just TEMPO). -/
def claim_end_time (later : List TafGroup) (el_type : String) : Option ℕ :=
  match (later.filter (fun g => g.kind = "BECMG" ∨ g.kind = "FM")).find?
      (fun g => restates g.period el_type) with
  | some g =>
    if g.kind = "BECMG" then g.to_utc.map _build_datetime
    else g.from_utc.map _build_datetime
  | none => none

/-- `parse_taf_elements` re-expressed with the amended specification
lookahead `spec_end_time`. -/
def spec_parse_taf (taf : TafData) : List WeatherElement :=
  (sorted_groups taf).enum.flatMap (fun gi_g =>
    (_extract_period_elements gi_g.2.period).map (fun v =>
      if gi_g.2.kind = "TEMPO" then
        { value := v, source := "TAF",
          valid_from := gi_g.2.from_utc.map _build_datetime,
          valid_to := gi_g.2.to_utc.map _build_datetime }
      else
        { value := v, source := "TAF",
          valid_from :=
            if gi_g.2.kind = "BASE" then none
            else gi_g.2.from_utc.map _build_datetime,
          valid_to := spec_end_time ((sorted_groups taf).drop (gi_g.1 + 1)) v.kind }))

/-- `parse_taf_elements` re-expressed with the claim's lookahead
`claim_end_time` (BECMG/FM groups only). -/
def claim_parse_taf (taf : TafData) : List WeatherElement :=
  (sorted_groups taf).enum.flatMap (fun gi_g =>
    (_extract_period_elements gi_g.2.period).map (fun v =>
      if gi_g.2.kind = "TEMPO" then
        { value := v, source := "TAF",
          valid_from := gi_g.2.from_utc.map _build_datetime,
          valid_to := gi_g.2.to_utc.map _build_datetime }
      else
        { value := v, source := "TAF",
          valid_from :=
            if gi_g.2.kind = "BASE" then none
            else gi_g.2.from_utc.map _build_datetime,
          valid_to := claim_end_time ((sorted_groups taf).drop (gi_g.1 + 1)) v.kind }))

/-- Concrete midnight-crossing TAF for the counterexample to the claim's
lookahead.  It is the parse of
`TAF OEKF 311700Z 3118/0118 21010KT BECMG 3120/3122 24012KT FM010300 22015KT`:
the FM group's start hour (03) precedes the base period's start hour (18),
so the FM group sorts first and the BASE group lies between it and the
BECMG group. -/
def taf0 : TafData :=
  { base_period := some
      { valid_from_utc := some 18, valid_to_utc := some 18,
        wind_dir := some 210, wind_speed := some 10 },
    becmg_periods :=
      [{ valid_from_utc := some 20, valid_to_utc := some 22,
         wind_dir := some 240, wind_speed := some 12 }],
    tempo_periods := [],
    fm_periods :=
      [{ valid_from_utc := some 3, valid_to_utc := some 24,
         wind_dir := some 220, wind_speed := some 15 }] }

/-- The shortest angular difference between a wind direction and a runway
heading, as the specification words it. -/
def shortest_angle (d rh : ℤ) : ℤ := min |d - rh| (360 - |d - rh|)

/-- Left-to-right upgrade of a stored cloud layer by a list of later
candidates at the same height: a candidate replaces the stored layer only
when its coverage rank is strictly greater. -/
def rank_upgrade (v : CloudLayer) (es : List CloudLayer) : CloudLayer :=
  es.foldl
    (fun b e =>
      if COVERAGE_RANK b.coverage < COVERAGE_RANK e.coverage then e else b)
    v

/-- The layer that survives cloud merging at a given height: the first
element at that height, upgraded by the later ones. -/
def cloud_winner (h : ℕ) (ls : List CloudLayer) : Option CloudLayer :=
  match ls.filter (fun e => e.height_ft == h) with
  | [] => none
  | e :: rest => some (rank_upgrade e rest)

/-- An element that can switch on the resolved `has_cb` flag: a cloud
element with the CB flag, or a weather element with a CB-like code. -/
def is_cb_contributor (el : WeatherElement) : Bool :=
  match el.value with
  | .cloud cl => cl.cb
  | .wx code => is_cb_code code
  | _ => false

/-! ## Theorems -/

/-- **C9** — `filter` keeps exactly the elements whose source is in the
requested set and whose validity overlaps the window; an element is excluded
by the overlap test if and only if it has a closed start strictly after the
window end or a closed end strictly before the window start, and an element
with both ends open is always included.  (Immutability of the receiver is by
construction: `filter` returns a fresh collection value.) -/
theorem c9_filter_overlap_semantics :
    ∀ (c : WeatherCollection) (ws we : Option ℕ) (srcs : Option (List String)),
      (c.filter ws we srcs).elements = c.elements.filter
        (fun el => el.overlaps_window ws we &&
          match srcs with
          | none => true
          | some ss => decide (el.source ∈ ss)) ∧
      (∀ el : WeatherElement,
        el.overlaps_window ws we = false ↔
          ((∃ e vf, we = some e ∧ el.valid_from = some vf ∧ e < vf) ∨
           (∃ s vt, ws = some s ∧ el.valid_to = some vt ∧ vt < s))) ∧
      (∀ el : WeatherElement, el.valid_from = none → el.valid_to = none →
        el.overlaps_window ws we = true) := by
  intro c ws we srcs
  refine ⟨rfl, ?_, ?_⟩
  · intro el
    obtain ⟨v, s, vf, vt⟩ := el
    unfold WeatherElement.overlaps_window starts_after_end ends_before_start
    cases vf <;> cases vt <;> cases ws <;> cases we <;> simp <;> omega
  · intro el hf ht
    unfold WeatherElement.overlaps_window starts_after_end ends_before_start
    rw [hf, ht]
    cases ws <;> cases we <;> simp

/-- **C9 witness** — concrete instantiation: with window `[3, 7]` and the
METAR-only source set, an element valid `[8, ∞)` is excluded and a fully
open element is kept. -/
theorem c9_witness :
    WeatherElement.overlaps_window ⟨.vis 5, "METAR", some 8, none⟩ (some 3) (some 7) = false ∧
    WeatherElement.overlaps_window ⟨.vis 5, "METAR", none, none⟩ (some 3) (some 7) = true := by
  constructor
  · exact ((c9_filter_overlap_semantics ⟨[]⟩ (some 3) (some 7) none).2.1
      ⟨.vis 5, "METAR", some 8, none⟩).mpr (Or.inl ⟨7, 8, rfl, rfl, by decide⟩)
  · exact (c9_filter_overlap_semantics ⟨[]⟩ (some 3) (some 7) none).2.2
      ⟨.vis 5, "METAR", none, none⟩ rfl rfl

/-- **C6** — the resolved visibility is the minimum of the `meters` values
over all visibility elements of the collection (`List.min?` is `none` on the
empty list, so a collection without visibility elements resolves to an
absent visibility). -/
theorem c6_visibility_minimum :
    ∀ (c : WeatherCollection) (rh : Option ℕ),
      (c.resolve rh).visibility_m = c.visValues.min? := by
  intro c rh
  show (match c.visValues with
        | [] => none
        | v :: rest => some (rest.foldl min v)) = c.visValues.min?
  cases h : c.visValues <;> simp [List.min?]

/-- The code's folded angle equals the claim's shortest angular difference
whenever the raw difference is at most 360°. -/
theorem angle_diff_eq_shortest (d rh : ℤ) (h : |d - rh| ≤ 360) :
    angle_diff d rh = shortest_angle d rh := by
  unfold angle_diff shortest_angle
  rcases le_or_lt |d - rh| 180 with h1 | h1
  · rw [if_neg (not_lt.mpr h1), min_eq_left (by omega)]
  · rw [if_pos h1, min_eq_right (by omega)]

/-- **C8** — `calculate_wind_components` returns
`(|speed·sin angle|, speed·cos angle)` for the shortest angular difference
`angle` between wind direction and runway heading; a wind aligned with the
runway gives crosswind 0 and headwind = speed, and a wind exactly 90° off
gives crosswind = speed and headwind exactly 0 (the real-number model of the
float computation). -/
theorem c8_wind_components :
    ∀ (d s rh : ℕ), d < 360 → rh < 360 →
      calculate_wind_components d s rh =
        (|(s : ℝ) * Real.sin (radians (shortest_angle d rh))|,
         (s : ℝ) * Real.cos (radians (shortest_angle d rh))) ∧
      (d = rh → calculate_wind_components d s rh = (0, (s : ℝ))) ∧
      (shortest_angle d rh = 90 →
        calculate_wind_components d s rh = ((s : ℝ), 0)) := by
  intro d s rh hd hrh
  have habs : |(d : ℤ) - (rh : ℤ)| ≤ 360 := by
    rw [abs_le]
    omega
  refine ⟨?_, ?_, ?_⟩
  · unfold calculate_wind_components
    rw [angle_diff_eq_shortest _ _ habs]
    norm_cast
  · intro hdr
    subst hdr
    unfold calculate_wind_components angle_diff
    have h0 : (d : ℤ) - (d : ℤ) = 0 := by ring
    rw [h0]
    have hr : radians 0 = 0 := by unfold radians; norm_num
    norm_num [hr]
  · intro h90
    have ha : angle_diff d rh = 90 := by
      rw [angle_diff_eq_shortest _ _ habs]; exact h90
    unfold calculate_wind_components
    rw [ha]
    have hr : radians 90 = Real.pi / 2 := by unfold radians; push_cast; ring
    rw [hr, Real.sin_pi_div_two, Real.cos_pi_div_two]
    norm_num [abs_of_nonneg]

/-- **C8 witness** — a wind aligned with the runway (090° at 10 kt on runway
heading 090°) yields crosswind 0 and headwind 10. -/
theorem c8_witness :
    calculate_wind_components ((90 : ℕ) : ℤ) ((10 : ℕ) : ℤ) ((90 : ℕ) : ℤ) =
      (0, ((10 : ℕ) : ℝ)) :=
  (c8_wind_components 90 10 90 (by decide) (by decide)).2.1 rfl

/-- **C1** — if the effective wind (gust preferred over sustained speed)
exceeds 35 kt, or the snapshot's CB flag is set, `determine_phase` returns
RECALL regardless of every other field, and no phase-tier criteria are
recorded in the checks output. -/
theorem c1_recall_short_circuit :
    ∀ (resolved : Resolved) (rh : ℕ) (cfg : AirfieldData) (temp : Option ℤ)
      (cavok : Bool),
      35 < effective_wind_of resolved.wind ∨ resolved.has_cb = true →
      (determine_phase resolved rh cfg temp cavok).phase = "RECALL" ∧
      (determine_phase resolved rh cfg temp cavok).checks = [] := by
  intro r rh cfg temp cavok h
  unfold determine_phase
  rcases h with h | h
  · rw [if_pos h]
    exact ⟨rfl, rfl⟩
  · by_cases hw : 35 < effective_wind_of r.wind
    · rw [if_pos hw]
      exact ⟨rfl, rfl⟩
    · rw [if_neg hw, if_pos h]
      exact ⟨rfl, rfl⟩

/-- **C1 witness** — wind 330°/40 kt gusting 50 kt with a CB flag set gives
RECALL with an empty checks record. -/
theorem c1_witness :
    (determine_phase ⟨none, [], some ⟨some 330, 40, some 50⟩, [], true⟩ 330
      ⟨0, []⟩ none false).phase = "RECALL" ∧
    (determine_phase ⟨none, [], some ⟨some 330, 40, some 50⟩, [], true⟩ 330
      ⟨0, []⟩ none false).checks = [] :=
  c1_recall_short_circuit ⟨none, [], some ⟨some 330, 40, some 50⟩, [], true⟩
    330 ⟨0, []⟩ none false (Or.inl (by decide))

/-- **C2** — when neither RECALL gate fires, a temperature above 50 °C or a
crosswind above 24 kt yields HOLD before any phase tier is evaluated (empty
checks record); and a 25 kt wind oriented exactly 90° off any runway heading
has crosswind exactly 25 kt, hence HOLD. -/
theorem c2_hold_short_circuit :
    (∀ (resolved : Resolved) (rh : ℕ) (cfg : AirfieldData) (temp : Option ℤ)
      (cavok : Bool),
      effective_wind_of resolved.wind ≤ 35 →
      resolved.has_cb = false →
      ((∃ t, temp = some t ∧ 50 < t) ∨ 24 < crosswind_of resolved.wind rh) →
      (determine_phase resolved rh cfg temp cavok).phase = "HOLD" ∧
      (determine_phase resolved rh cfg temp cavok).checks = []) ∧
    (∀ rh : ℕ, rh < 360 →
      crosswind_of (some ⟨some ((rh + 90) % 360), 25, none⟩) rh = 25 ∧
      ∀ (vis : Option ℕ) (cl : List CloudLayer) (wx : List String)
        (cfg : AirfieldData) (temp : Option ℤ) (cavok : Bool),
        (determine_phase ⟨vis, cl, some ⟨some ((rh + 90) % 360), 25, none⟩, wx, false⟩
          rh cfg temp cavok).phase = "HOLD") := by
  have main : ∀ (resolved : Resolved) (rh : ℕ) (cfg : AirfieldData)
      (temp : Option ℤ) (cavok : Bool),
      effective_wind_of resolved.wind ≤ 35 →
      resolved.has_cb = false →
      ((∃ t, temp = some t ∧ 50 < t) ∨ 24 < crosswind_of resolved.wind rh) →
      (determine_phase resolved rh cfg temp cavok).phase = "HOLD" ∧
      (determine_phase resolved rh cfg temp cavok).checks = [] := by
    intro r rh cfg temp cavok hw hcb hd
    unfold determine_phase
    rw [if_neg (by omega : ¬ 35 < effective_wind_of r.wind)]
    rw [if_neg (by simp [hcb] : ¬ r.has_cb = true)]
    rcases hd with ⟨t, ht, h50⟩ | hx
    · subst ht
      rw [if_pos (by simp [temp_exceeds_50, h50] : temp_exceeds_50 (some t) = true)]
      exact ⟨rfl, rfl⟩
    · by_cases htemp : temp_exceeds_50 temp = true
      · rw [if_pos htemp]
        exact ⟨rfl, rfl⟩
      · rw [if_neg htemp, if_pos hx]
        exact ⟨rfl, rfl⟩
  refine ⟨main, fun rh hrh => ?_⟩
  have hxw : crosswind_of (some ⟨some ((rh + 90) % 360), 25, none⟩) rh = 25 := by
    have hd : angle_diff (((rh + 90) % 360 : ℕ) : ℤ) (rh : ℤ) = 90 := by
      rcases Nat.lt_or_ge rh 270 with h | h
      · have e : (rh + 90) % 360 = rh + 90 := Nat.mod_eq_of_lt (by omega)
        rw [e]
        unfold angle_diff
        have e2 : ((rh + 90 : ℕ) : ℤ) - (rh : ℤ) = 90 := by push_cast; ring
        rw [e2]
        norm_num
      · have e : (rh + 90) % 360 = rh - 270 := by omega
        rw [e]
        unfold angle_diff
        have e2 : ((rh - 270 : ℕ) : ℤ) - (rh : ℤ) = -270 := by omega
        rw [e2]
        norm_num
    have hc : crosswind_of (some ⟨some ((rh + 90) % 360), 25, none⟩) rh =
        (calculate_wind_components (((rh + 90) % 360 : ℕ) : ℤ) ((25 : ℕ) : ℤ)
          ((rh : ℕ) : ℤ)).1 := rfl
    rw [hc]
    unfold calculate_wind_components
    rw [hd]
    have hr : radians 90 = Real.pi / 2 := by unfold radians; push_cast; ring
    rw [hr, Real.sin_pi_div_two]
    push_cast
    norm_num
  refine ⟨hxw, fun vis cl wx cfg temp cavok => ?_⟩
  exact (main ⟨vis, cl, some ⟨some ((rh + 90) % 360), 25, none⟩, wx, false⟩
    rh cfg temp cavok (by simp [effective_wind_of, WindVal.effective]) rfl
    (Or.inr (by rw [hxw]; norm_num))).1

/-- **C2 witness** — temperature 55 °C (wind 20 kt, no CB) gives HOLD with an
empty checks record. -/
theorem c2_witness :
    (determine_phase ⟨some 9999, [], some ⟨some 330, 20, none⟩, [], false⟩ 330
      ⟨0, []⟩ (some 55) false).phase = "HOLD" ∧
    (determine_phase ⟨some 9999, [], some ⟨some 330, 20, none⟩, [], false⟩ 330
      ⟨0, []⟩ (some 55) false).checks = [] :=
  c2_hold_short_circuit.1 ⟨some 9999, [], some ⟨some 330, 20, none⟩, [], false⟩
    330 ⟨0, []⟩ (some 55) false (by decide) rfl (Or.inl ⟨55, rfl, by decide⟩)

/-- A tier phase is only ever returned when all of that tier's recorded
criteria hold. -/
theorem dp_phase_tier_imp (resolved : Resolved) (rh : ℕ) (cfg : AirfieldData)
    (temp : Option ℤ) (cavok : Bool) :
    ((determine_phase resolved rh cfg temp cavok).phase = "UNRESTRICTED" →
      (unrestricted_checks resolved rh cfg cavok).all (fun ch => ch.2) = true) ∧
    ((determine_phase resolved rh cfg temp cavok).phase = "RESTRICTED" →
      (restricted_checks resolved rh cfg cavok).all (fun ch => ch.2) = true) ∧
    ((determine_phase resolved rh cfg temp cavok).phase = "FS VFR" →
      (fs_vfr_checks resolved rh cfg cavok).all (fun ch => ch.2) = true) := by
  unfold determine_phase
  split_ifs with h1 h2 h3 h4 h5 h6 h7 h8 h9 <;>
    refine ⟨fun hp => ?_, fun hp => ?_, fun hp => ?_⟩ <;>
    first
      | assumption
      | simp at hp

/-- Whenever a tier's criteria list is recorded in the checks output, it is
that tier's computed criteria list. -/
theorem dp_checks_entries (resolved : Resolved) (rh : ℕ) (cfg : AirfieldData)
    (temp : Option ℤ) (cavok : Bool) :
    ∀ l, (("UNRESTRICTED", l) ∈ (determine_phase resolved rh cfg temp cavok).checks →
        l = unrestricted_checks resolved rh cfg cavok) ∧
      (("RESTRICTED", l) ∈ (determine_phase resolved rh cfg temp cavok).checks →
        l = restricted_checks resolved rh cfg cavok) ∧
      (("FS VFR", l) ∈ (determine_phase resolved rh cfg temp cavok).checks →
        l = fs_vfr_checks resolved rh cfg cavok) := by
  unfold determine_phase
  split_ifs with h1 h2 h3 h4 h5 h6 h7 h8 h9 <;> intro l <;>
    refine ⟨fun hl => ?_, fun hl => ?_, fun hl => ?_⟩ <;>
    first
      | (simp at hl; exact hl)
      | simp at hl

/-- **C5** — with CAVOK set and no cloud layers in the snapshot, every tier
whose cloud-free threshold converted to AGL exceeds the 5000 ft CAVOK
guarantee has its "no cloud below threshold" criterion (and, for
UNRESTRICTED, its maximum-coverage criterion) evaluated as failed, and the
tier cannot be selected. -/
theorem c5_cavok_guarantee :
    ∀ (resolved : Resolved) (rh : ℕ) (cfg : AirfieldData) (temp : Option ℤ)
      (cavok : Bool),
      cavok = true → resolved.clouds = [] →
      ((5000 < 8000 - cfg.elevation_ft →
          (unrestricted_checks resolved rh cfg cavok)[1]? =
            some ("No cloud < 8000ft AMSL", false) ∧
          (unrestricted_checks resolved rh cfg cavok)[2]? =
            some ("Max FEW above 8000ft AMSL", false) ∧
          (∀ l, ("UNRESTRICTED", l) ∈ (determine_phase resolved rh cfg temp cavok).checks →
            l = unrestricted_checks resolved rh cfg cavok) ∧
          (determine_phase resolved rh cfg temp cavok).phase ≠ "UNRESTRICTED") ∧
       (5000 < 6000 - cfg.elevation_ft →
          (restricted_checks resolved rh cfg cavok)[1]? =
            some ("No cloud < 6000ft AMSL", false) ∧
          (∀ l, ("RESTRICTED", l) ∈ (determine_phase resolved rh cfg temp cavok).checks →
            l = restricted_checks resolved rh cfg cavok) ∧
          (determine_phase resolved rh cfg temp cavok).phase ≠ "RESTRICTED") ∧
       (5000 < 5000 - cfg.elevation_ft →
          (fs_vfr_checks resolved rh cfg cavok)[1]? =
            some ("No cloud < 5000ft AMSL", false) ∧
          (∀ l, ("FS VFR", l) ∈ (determine_phase resolved rh cfg temp cavok).checks →
            l = fs_vfr_checks resolved rh cfg cavok) ∧
          (determine_phase resolved rh cfg temp cavok).phase ≠ "FS VFR")) := by
  intro resolved rh cfg temp cavok hcav hcl
  have hlow : lowest_cloud_for_phase resolved.clouds cavok = some 5000 := by
    rw [hcl, hcav]
    rfl
  refine ⟨fun hu => ?_, fun hr => ?_, fun hf => ?_⟩
  · have hcf : cloud_free_below (lowest_cloud_for_phase resolved.clouds cavok)
        (8000 - cfg.elevation_ft) = false := by
      rw [hlow]
      simp only [cloud_free_below, decide_eq_false_iff_not, not_le]
      omega
    have hmf : max_few_ok resolved.clouds cavok (8000 - cfg.elevation_ft) = false := by
      rw [hcl, hcav]
      unfold max_few_ok
      rw [if_pos (by simp; omega)]
    refine ⟨by simp [unrestricted_checks, hcf], by simp [unrestricted_checks, hmf],
      fun l hl => ((dp_checks_entries resolved rh cfg temp cavok) l).1 hl, fun hp => ?_⟩
    have hall := (dp_phase_tier_imp resolved rh cfg temp cavok).1 hp
    simp [unrestricted_checks, hcf] at hall
  · have hcf : cloud_free_below (lowest_cloud_for_phase resolved.clouds cavok)
        (6000 - cfg.elevation_ft) = false := by
      rw [hlow]
      simp only [cloud_free_below, decide_eq_false_iff_not, not_le]
      omega
    refine ⟨by simp [restricted_checks, hcf],
      fun l hl => ((dp_checks_entries resolved rh cfg temp cavok) l).2.1 hl, fun hp => ?_⟩
    have hall := (dp_phase_tier_imp resolved rh cfg temp cavok).2.1 hp
    simp [restricted_checks, hcf] at hall
  · have hcf : cloud_free_below (lowest_cloud_for_phase resolved.clouds cavok)
        (5000 - cfg.elevation_ft) = false := by
      rw [hlow]
      simp only [cloud_free_below, decide_eq_false_iff_not, not_le]
      omega
    refine ⟨by simp [fs_vfr_checks, hcf],
      fun l hl => ((dp_checks_entries resolved rh cfg temp cavok) l).2.2 hl, fun hp => ?_⟩
    have hall := (dp_phase_tier_imp resolved rh cfg temp cavok).2.2 hp
    simp [fs_vfr_checks, hcf] at hall

/-- **C5 witness** — CAVOK, no clouds, elevation 0 (UNRESTRICTED threshold
8000 ft AGL > 5000 ft): the UNRESTRICTED cloud criteria are recorded as
failed and the phase is not UNRESTRICTED. -/
theorem c5_witness :
    (unrestricted_checks ⟨some 10000, [], some ⟨some 330, 10, none⟩, [], false⟩
      330 ⟨0, []⟩ true)[1]? = some ("No cloud < 8000ft AMSL", false) ∧
    (determine_phase ⟨some 10000, [], some ⟨some 330, 10, none⟩, [], false⟩
      330 ⟨0, []⟩ none true).phase ≠ "UNRESTRICTED" := by
  obtain ⟨h1, _, _, h4⟩ :=
    (c5_cavok_guarantee ⟨some 10000, [], some ⟨some 330, 10, none⟩, [], false⟩
      330 ⟨0, []⟩ none true rfl rfl).1 (by decide)
  exact ⟨h1, h4⟩

/-- The code's lookahead scan equals the amended specification lookahead:
filtering TEMPO away and taking the first remaining group that re-states
the kind. -/
theorem lookahead_loop_eq_spec (el_type : String) :
    ∀ l : List TafGroup, lookahead_loop el_type l = spec_end_time l el_type := by
  intro l
  induction l with
  | nil => rfl
  | cons g rest ih =>
    unfold lookahead_loop spec_end_time
    unfold spec_end_time at ih
    by_cases hT : g.kind = "TEMPO"
    · simp [hT, ih]
    · by_cases hres : restates g.period el_type = true
      · simp [hT, hres]
      · simp [hT, hres, ih]

/-- **C3 (amended)** — `parse_taf_elements` equals the construction in which
every BASE/BECMG/FM element takes `valid_from = none` for BASE (the stated
start hour otherwise) and `valid_to` from the amended lookahead
`spec_end_time`: among the later groups in the sorted list, TEMPO groups are
skipped, and the first remaining group that re-states the element's kind
decides — the transition-end hour if it is BECMG, the start hour if it is
FM, and *open-ended validity if it is the BASE group* (reachable only when a
change group's start hour precedes the base period's start hour); if no
later group re-states the kind, validity stays open-ended. -/
theorem c3_lookahead_amended :
    ∀ taf : TafData, parse_taf_elements taf = spec_parse_taf taf := by
  intro taf
  unfold parse_taf_elements spec_parse_taf _lookahead_end_time
  simp only [lookahead_loop_eq_spec]

/-- **C3 counterexample** — on the midnight-crossing TAF `taf0` the claim's
lookahead (over BECMG/FM groups only) disagrees with the code: the FM
group's wind element is emitted with open-ended validity (the intervening
BASE group re-states wind and stops the scan), while the claim prescribes
the BECMG transition-end hour 22. -/
theorem c3_counterexample :
    parse_taf_elements taf0 ≠ claim_parse_taf taf0 ∧
    (parse_taf_elements taf0).map (fun el => el.valid_to) =
      [none, some 22, none] ∧
    (claim_parse_taf taf0).map (fun el => el.valid_to) =
      [some 22, some 22, none] := by
  refine ⟨by decide, by decide, by decide⟩

/-- `update_at` only rewrites the pair stored under the updated key. -/
theorem find?_update_at_self (m : List (ℕ × CloudLayer)) (h : ℕ) (v : CloudLayer) :
    (update_at m h v).find? (fun p => p.1 == h) =
      (m.find? (fun p => p.1 == h)).map (fun _ => (h, v)) := by
  induction m with
  | nil => rfl
  | cons p m ih =>
    by_cases hp : p.1 = h
    · simp [update_at, List.find?_cons, hp]
    · simp only [update_at, List.map_cons, if_neg hp] at *
      rw [List.find?_cons, List.find?_cons]
      have : (p.1 == h) = false := by simp [hp]
      rw [this]
      simp only [cond_false]
      exact ih

/-- `update_at` leaves lookups under other keys unchanged. -/
theorem find?_update_at_ne (m : List (ℕ × CloudLayer)) (h h' : ℕ)
    (v : CloudLayer) (hne : h' ≠ h) :
    (update_at m h v).find? (fun p => p.1 == h') = m.find? (fun p => p.1 == h') := by
  induction m with
  | nil => rfl
  | cons p m ih =>
    by_cases hp : p.1 = h
    · have h1 : (h == h') = false := by simpa using Ne.symm hne
      have h2 : (p.1 == h') = false := by rw [hp]; simpa using Ne.symm hne
      simp only [update_at, List.map_cons, if_pos hp] at *
      rw [List.find?_cons, List.find?_cons, h1, h2]
      simp only [cond_false]
      exact ih
    · simp only [update_at, List.map_cons, if_neg hp] at *
      rw [List.find?_cons, List.find?_cons]
      cases hq : (p.1 == h') <;> simp [hq, ih]

/-- Membership after `update_at`. -/
theorem mem_update_at (m : List (ℕ × CloudLayer)) (h : ℕ) (v : CloudLayer)
    (q : ℕ × CloudLayer) (hq : q ∈ update_at m h v) : q ∈ m ∨ q = (h, v) := by
  unfold update_at at hq
  obtain ⟨p, hp, hpq⟩ := List.mem_map.mp hq
  by_cases hph : p.1 = h
  · rw [if_pos hph] at hpq
    exact Or.inr hpq.symm
  · rw [if_neg hph] at hpq
    exact Or.inl (hpq ▸ hp)

/-- `update_at` preserves the key list. -/
theorem update_at_keys (m : List (ℕ × CloudLayer)) (h : ℕ) (v : CloudLayer) :
    (update_at m h v).map Prod.fst = m.map Prod.fst := by
  unfold update_at
  rw [List.map_map]
  apply List.map_congr_left
  intro p _
  by_cases hp : p.1 = h
  · simp [hp]
  · simp [hp]

/-- One merge step, looked up at its own height: fresh heights are inserted,
stored layers are replaced exactly on strictly greater coverage rank. -/
theorem find?_cloud_step_self (m : List (ℕ × CloudLayer)) (e : CloudLayer) :
    (cloud_step m e).find? (fun p => p.1 == e.height_ft) =
      match m.find? (fun p => p.1 == e.height_ft) with
      | none => some (e.height_ft, e)
      | some p =>
        if COVERAGE_RANK p.2.coverage < COVERAGE_RANK e.coverage then
          some (e.height_ft, e)
        else some p := by
  unfold cloud_step
  cases hf : m.find? (fun p => p.1 == e.height_ft) with
  | none =>
    simp only [hf]
    rw [List.find?_append]
    rw [hf]
    simp
  | some p =>
    simp only [hf]
    by_cases hrk : COVERAGE_RANK p.2.coverage < COVERAGE_RANK e.coverage
    · rw [if_pos hrk, if_pos hrk, find?_update_at_self, hf]
      rfl
    · rw [if_neg hrk, if_neg hrk, hf]

/-- One merge step leaves lookups at other heights unchanged. -/
theorem find?_cloud_step_ne (m : List (ℕ × CloudLayer)) (e : CloudLayer)
    (h : ℕ) (hne : e.height_ft ≠ h) :
    (cloud_step m e).find? (fun p => p.1 == h) = m.find? (fun p => p.1 == h) := by
  unfold cloud_step
  cases hf : m.find? (fun p => p.1 == e.height_ft) with
  | none =>
    rw [List.find?_append]
    have : List.find? (fun p => p.1 == h) [(e.height_ft, e)] = none := by
      simp [hne]
    rw [this]
    cases m.find? (fun p => p.1 == h) <;> rfl
  | some p =>
    dsimp only
    by_cases hrk : COVERAGE_RANK p.2.coverage < COVERAGE_RANK e.coverage
    · rw [if_pos hrk]
      exact find?_update_at_ne m e.height_ft h e (Ne.symm hne)
    · rw [if_neg hrk]

/-- Provenance: every layer stored by the merge fold comes from the initial
state or from one of the processed elements. -/
theorem mem_foldl_cloud_step (ls : List CloudLayer) :
    ∀ (m : List (ℕ × CloudLayer)) (q : ℕ × CloudLayer),
      q ∈ ls.foldl cloud_step m → q ∈ m ∨ q.2 ∈ ls := by
  induction ls with
  | nil => exact fun m q hq => Or.inl hq
  | cons e ls ih =>
    intro m q hq
    rcases ih (cloud_step m e) q hq with hq' | hq'
    · unfold cloud_step at hq'
      cases hf : m.find? (fun p => p.1 == e.height_ft) with
      | none =>
        rw [hf] at hq'
        rcases List.mem_append.mp hq' with hm | he
        · exact Or.inl hm
        · right
          have : q = (e.height_ft, e) := by simpa using he
          rw [this]
          exact List.mem_cons_self e ls
      | some p =>
        rw [hf] at hq'
        dsimp only at hq'
        by_cases hrk : COVERAGE_RANK p.2.coverage < COVERAGE_RANK e.coverage
        · rw [if_pos hrk] at hq'
          rcases mem_update_at m e.height_ft e q hq' with hm | hv
          · exact Or.inl hm
          · right
            rw [hv]
            exact List.mem_cons_self e ls
        · rw [if_neg hrk] at hq'
          exact Or.inl hq'
    · exact Or.inr (List.mem_cons_of_mem e hq')

/-- The merge fold preserves the "stored height equals key" invariant. -/
theorem heights_foldl_cloud_step (ls : List CloudLayer) :
    ∀ (m : List (ℕ × CloudLayer)),
      (∀ p ∈ m, (p : ℕ × CloudLayer).2.height_ft = p.1) →
      ∀ p ∈ ls.foldl cloud_step m, (p : ℕ × CloudLayer).2.height_ft = p.1 := by
  induction ls with
  | nil => exact fun m hm => hm
  | cons e ls ih =>
    intro m hm
    apply ih
    intro p hp
    unfold cloud_step at hp
    cases hf : m.find? (fun q => q.1 == e.height_ft) with
    | none =>
      rw [hf] at hp
      rcases List.mem_append.mp hp with h1 | h1
      · exact hm p h1
      · have : p = (e.height_ft, e) := by simpa using h1
        rw [this]
    | some q =>
      rw [hf] at hp
      dsimp only at hp
      by_cases hrk : COVERAGE_RANK q.2.coverage < COVERAGE_RANK e.coverage
      · rw [if_pos hrk] at hp
        rcases mem_update_at m e.height_ft e p hp with h1 | h1
        · exact hm p h1
        · rw [h1]
      · rw [if_neg hrk] at hp
        exact hm p hp

/-- The merge fold preserves distinctness of the stored heights. -/
theorem keys_nodup_foldl_cloud_step (ls : List CloudLayer) :
    ∀ (m : List (ℕ × CloudLayer)),
      (m.map Prod.fst).Nodup →
      ((ls.foldl cloud_step m).map Prod.fst).Nodup := by
  induction ls with
  | nil => exact fun m hm => hm
  | cons e ls ih =>
    intro m hm
    apply ih
    unfold cloud_step
    cases hf : m.find? (fun q => q.1 == e.height_ft) with
    | none =>
      rw [List.map_append]
      have hnotin : e.height_ft ∉ m.map Prod.fst := by
        intro hmem
        obtain ⟨p, hp, hph⟩ := List.mem_map.mp hmem
        have := List.find?_eq_none.mp hf p hp
        simp [hph] at this
      simp [List.nodup_append, hm, hnotin]
    | some q =>
      dsimp only
      by_cases hrk : COVERAGE_RANK q.2.coverage < COVERAGE_RANK e.coverage
      · rw [if_pos hrk, update_at_keys]
        exact hm
      · rw [if_neg hrk]
        exact hm

/-- Unfolding `rank_upgrade` one candidate at a time. -/
theorem rank_upgrade_cons (v e : CloudLayer) (es : List CloudLayer) :
    rank_upgrade v (e :: es) =
      rank_upgrade
        (if COVERAGE_RANK v.coverage < COVERAGE_RANK e.coverage then e else v)
        es := rfl

/-- The upgraded layer is one of the candidates. -/
theorem rank_upgrade_mem (es : List CloudLayer) :
    ∀ v, rank_upgrade v es ∈ v :: es := by
  induction es with
  | nil => intro v; exact List.mem_cons_self v []
  | cons e es ih =>
    intro v
    rw [rank_upgrade_cons]
    by_cases hrk : COVERAGE_RANK v.coverage < COVERAGE_RANK e.coverage
    · rw [if_pos hrk]
      have := ih e
      simp only [List.mem_cons] at this ⊢
      tauto
    · rw [if_neg hrk]
      have := ih v
      simp only [List.mem_cons] at this ⊢
      tauto

/-- The upgraded layer has the maximal coverage rank among the
candidates. -/
theorem rank_upgrade_rank (es : List CloudLayer) :
    ∀ v, COVERAGE_RANK v.coverage ≤ COVERAGE_RANK (rank_upgrade v es).coverage ∧
      ∀ e ∈ es, COVERAGE_RANK e.coverage ≤ COVERAGE_RANK (rank_upgrade v es).coverage := by
  induction es with
  | nil => intro v; exact ⟨le_refl _, by simp⟩
  | cons e es ih =>
    intro v
    rw [rank_upgrade_cons]
    by_cases hrk : COVERAGE_RANK v.coverage < COVERAGE_RANK e.coverage
    · rw [if_pos hrk]
      obtain ⟨h1, h2⟩ := ih e
      refine ⟨le_trans (le_of_lt hrk) h1, fun x hx => ?_⟩
      rcases List.mem_cons.mp hx with rfl | hx
      · exact h1
      · exact h2 x hx
    · rw [if_neg hrk]
      obtain ⟨h1, h2⟩ := ih v
      refine ⟨h1, fun x hx => ?_⟩
      rcases List.mem_cons.mp hx with rfl | hx
      · exact le_trans (not_lt.mp hrk) h1
      · exact h2 x hx

/-- A stored layer whose rank already dominates every candidate is never
replaced (no upgrade on equal rank — first writer wins). -/
theorem rank_upgrade_of_max (es : List CloudLayer) :
    ∀ v, (∀ e ∈ es, COVERAGE_RANK e.coverage ≤ COVERAGE_RANK v.coverage) →
      rank_upgrade v es = v := by
  induction es with
  | nil => intro v _; rfl
  | cons e es ih =>
    intro v hmax
    rw [rank_upgrade_cons,
      if_neg (not_lt.mpr (hmax e (List.mem_cons_self e es)))]
    exact ih v (fun x hx => hmax x (List.mem_cons_of_mem e hx))

/-- Characterisation of the merge fold's lookup: the stored layer under a
height is the first element at that height, upgraded left-to-right by the
later ones (starting from the initial store's entry when present). -/
theorem find?_foldl_cloud_step (ls : List CloudLayer) :
    ∀ (m : List (ℕ × CloudLayer)) (h : ℕ),
      (ls.foldl cloud_step m).find? (fun p => p.1 == h) =
        match m.find? (fun p => p.1 == h),
            ls.filter (fun e => e.height_ft == h) with
        | some p, f => some (h, rank_upgrade p.2 f)
        | none, [] => none
        | none, e :: rest => some (h, rank_upgrade e rest) := by
  induction ls with
  | nil =>
    intro m h
    simp only [List.foldl_nil, List.filter_nil]
    cases hf : m.find? (fun p => p.1 == h) with
    | none => rfl
    | some p =>
      have hp := List.find?_some hf
      obtain ⟨p1, p2⟩ := p
      simp only [beq_iff_eq] at hp
      subst hp
      rfl
  | cons e ls ih =>
    intro m h
    rw [List.foldl_cons, ih (cloud_step m e) h]
    by_cases heh : e.height_ft = h
    · subst heh
      rw [find?_cloud_step_self]
      have hfil : (e :: ls).filter (fun x => x.height_ft == e.height_ft) =
          e :: ls.filter (fun x => x.height_ft == e.height_ft) := by
        rw [List.filter_cons, if_pos (by simp)]
      rw [hfil]
      cases hf : m.find? (fun p => p.1 == e.height_ft) with
      | none => rfl
      | some p =>
        dsimp only
        by_cases hrk : COVERAGE_RANK p.2.coverage < COVERAGE_RANK e.coverage
        · rw [if_pos hrk]
          dsimp only
          rw [rank_upgrade_cons, if_pos hrk]
        · rw [if_neg hrk]
          have hp := List.find?_some hf
          obtain ⟨p1, p2⟩ := p
          simp only [beq_iff_eq] at hp
          subst hp
          dsimp only
          rw [rank_upgrade_cons, if_neg hrk]
    · rw [find?_cloud_step_ne m e h heh]
      have hfil : (e :: ls).filter (fun x => x.height_ft == h) =
          ls.filter (fun x => x.height_ft == h) := by
        rw [List.filter_cons, if_neg (by simpa using heh)]
      rw [hfil]

/-- The `by_height` dict, looked up at a height, stores exactly the winner at
that height. -/
theorem by_height_find? (ls : List CloudLayer) (h : ℕ) :
    (by_height ls).find? (fun p => p.1 == h) =
      (cloud_winner h ls).map (fun v => (h, v)) := by
  unfold by_height cloud_winner
  rw [find?_foldl_cloud_step]
  cases hfil : ls.filter (fun e => e.height_ft == h) <;> rfl

/-- In an association list with distinct keys, every member is found by its
own key. -/
theorem find?_of_mem_keys_nodup (m : List (ℕ × CloudLayer))
    (hnd : (m.map Prod.fst).Nodup) (p : ℕ × CloudLayer) (hp : p ∈ m) :
    m.find? (fun q => q.1 == p.1) = some p := by
  induction m with
  | nil => cases hp
  | cons q m ih =>
    rcases List.mem_cons.mp hp with rfl | hp'
    · rw [List.find?_cons, (by simp : (p.1 == p.1) = true)]
    · have hq : (q.1 == p.1) = false := by
        simp only [List.map_cons, List.nodup_cons] at hnd
        have : p.1 ∈ m.map Prod.fst := List.mem_map.mpr ⟨p, hp', rfl⟩
        simp only [beq_eq_false_iff_ne, ne_eq]
        intro he
        exact hnd.1 (he ▸ this)
      rw [List.find?_cons, hq]
      exact ih (by simp only [List.map_cons, List.nodup_cons] at hnd; exact hnd.2) hp'

/-- Membership in the resolved cloud list coincides with membership in the
`by_height` values. -/
theorem mem_resolveClouds_iff (ls : List CloudLayer) (l : CloudLayer) :
    l ∈ resolveClouds ls ↔ ∃ p ∈ by_height ls, (p : ℕ × CloudLayer).2 = l := by
  unfold resolveClouds
  constructor
  · intro hl
    have hm : l ∈ (by_height ls).map Prod.snd :=
      (List.perm_insertionSort height_le _).subset hl
    obtain ⟨p, hp, rfl⟩ := List.mem_map.mp hm
    exact ⟨p, hp, rfl⟩
  · rintro ⟨p, hp, rfl⟩
    exact (List.perm_insertionSort height_le _).mem_iff.mpr
      (List.mem_map.mpr ⟨p, hp, rfl⟩)

/-- A layer survives resolution exactly when it is the winner at its own
height. -/
theorem mem_resolveClouds_winner (ls : List CloudLayer) (l : CloudLayer) :
    l ∈ resolveClouds ls ↔ cloud_winner l.height_ft ls = some l := by
  rw [mem_resolveClouds_iff]
  constructor
  · rintro ⟨p, hp, rfl⟩
    have hh := heights_foldl_cloud_step ls [] (by simp) p hp
    have hnd := keys_nodup_foldl_cloud_step ls [] (by simp)
    have hf := find?_of_mem_keys_nodup (by_height ls) hnd p hp
    rw [by_height_find?] at hf
    obtain ⟨p1, p2⟩ := p
    simp only at hh
    rw [hh]
    cases hw : cloud_winner p1 ls with
    | none =>
      rw [hw] at hf
      have hf' : (none : Option (ℕ × CloudLayer)) = some (p1, p2) := hf
      cases hf'
    | some w =>
      rw [hw] at hf
      have hf' : some ((p1, w) : ℕ × CloudLayer) = some (p1, p2) := hf
      have hw2 : w = p2 := by
        injection hf' with h1
        exact congrArg Prod.snd h1
      rw [hw2]
  · intro hw
    have hf : (by_height ls).find? (fun p => p.1 == l.height_ft) =
        some (l.height_ft, l) := by
      rw [by_height_find?, hw]
      rfl
    exact ⟨(l.height_ft, l), List.mem_of_find?_eq_some hf, rfl⟩

/-- Provenance: every resolved layer is one of the collection's cloud
values. -/
theorem resolveClouds_subset (ls : List CloudLayer) (l : CloudLayer)
    (hl : l ∈ resolveClouds ls) : l ∈ ls := by
  obtain ⟨p, hp, rfl⟩ := (mem_resolveClouds_iff ls l).mp hl
  rcases mem_foldl_cloud_step ls [] p hp with h | h
  · cases h
  · exact h

/-- The winner at a height belongs to the elements at that height and
maximises the coverage rank there. -/
theorem cloud_winner_spec (ls : List CloudLayer) (h : ℕ) (w : CloudLayer)
    (hw : cloud_winner h ls = some w) :
    w ∈ ls ∧ w.height_ft = h ∧
      ∀ e ∈ ls, e.height_ft = h →
        COVERAGE_RANK e.coverage ≤ COVERAGE_RANK w.coverage := by
  unfold cloud_winner at hw
  cases hfil : ls.filter (fun e => e.height_ft == h) with
  | nil => rw [hfil] at hw; cases hw
  | cons e rest =>
    rw [hfil] at hw
    simp only [Option.some.injEq] at hw
    have hwmem : w ∈ e :: rest := hw ▸ rank_upgrade_mem rest e
    have hwfil : w ∈ ls.filter (fun x => x.height_ft == h) := hfil ▸ hwmem
    have hwls := List.mem_filter.mp hwfil
    refine ⟨hwls.1, by simpa using hwls.2, fun x hx hxh => ?_⟩
    have hxfil : x ∈ e :: rest := by
      rw [← hfil]
      exact List.mem_filter.mpr ⟨hx, by simpa using hxh⟩
    obtain ⟨h1, h2⟩ := rank_upgrade_rank rest e
    rcases List.mem_cons.mp hxfil with rfl | hx'
    · exact hw ▸ h1
    · exact hw ▸ h2 x hx'

/-- Any element height is represented among the winners. -/
theorem cloud_winner_total (ls : List CloudLayer) (e : CloudLayer)
    (he : e ∈ ls) : ∃ w, cloud_winner e.height_ft ls = some w := by
  unfold cloud_winner
  cases hfil : ls.filter (fun x => x.height_ft == e.height_ft) with
  | nil =>
    exfalso
    have : e ∈ ls.filter (fun x => x.height_ft == e.height_ft) :=
      List.mem_filter.mpr ⟨he, by simp⟩
    rw [hfil] at this
    cases this
  | cons x rest => exact ⟨rank_upgrade x rest, rfl⟩

/-- The resolved cloud heights are pairwise distinct. -/
theorem resolveClouds_heights_nodup (ls : List CloudLayer) :
    ((resolveClouds ls).map (fun l => l.height_ft)).Nodup := by
  have hperm : (resolveClouds ls).Perm ((by_height ls).map Prod.snd) :=
    List.perm_insertionSort height_le _
  have h2 : (((by_height ls).map Prod.snd).map (fun l => l.height_ft)) =
      (by_height ls).map Prod.fst := by
    rw [List.map_map]
    apply List.map_congr_left
    intro p hp
    exact heights_foldl_cloud_step ls [] (by simp) p hp
  have h4 : ((((by_height ls).map Prod.snd)).map (fun l => l.height_ft)).Nodup := by
    rw [h2]
    exact keys_nodup_foldl_cloud_step ls [] (by simp)
  exact ((hperm.map (fun l => l.height_ft)).nodup_iff).mpr h4

/-- Folding the merge over layers with pairwise fresh, distinct heights just
appends them. -/
theorem foldl_cloud_step_fresh (out : List CloudLayer) :
    ∀ (m : List (ℕ × CloudLayer)),
      (∀ l ∈ out, ∀ p ∈ m, (p : ℕ × CloudLayer).1 ≠ l.height_ft) →
      (out.map (fun l => l.height_ft)).Nodup →
      out.foldl cloud_step m = m ++ out.map (fun l => (l.height_ft, l)) := by
  induction out with
  | nil => intro m _ _; simp
  | cons e out ih =>
    intro m hfresh hnd
    rw [List.foldl_cons]
    have hnone : m.find? (fun p => p.1 == e.height_ft) = none := by
      rw [List.find?_eq_none]
      intro p hp
      simpa using hfresh e (List.mem_cons_self e out) p hp
    have hstep : cloud_step m e = m ++ [(e.height_ft, e)] := by
      unfold cloud_step
      rw [hnone]
    rw [hstep, ih]
    · simp
    · intro l hl p hp
      rcases List.mem_append.mp hp with hpm | hpe
      · exact hfresh l (List.mem_cons_of_mem e hl) p hpm
      · have hpe' : p = (e.height_ft, e) := by simpa using hpe
        rw [hpe']
        simp only [List.map_cons, List.nodup_cons] at hnd
        intro he
        have he' : e.height_ft = l.height_ft := he
        exact hnd.1 (he' ▸ List.mem_map.mpr ⟨l, hl, rfl⟩)
    · simp only [List.map_cons, List.nodup_cons] at hnd
      exact hnd.2

/-- Cloud merging is idempotent: re-resolving the resolved layer list
reproduces it. -/
theorem resolveClouds_idempotent (ls : List CloudLayer) :
    resolveClouds (resolveClouds ls) = resolveClouds ls := by
  have hs : List.Sorted height_le (resolveClouds ls) :=
    List.sorted_insertionSort height_le _
  have hnd := resolveClouds_heights_nodup ls
  have hbh : by_height (resolveClouds ls) =
      (resolveClouds ls).map (fun l => (l.height_ft, l)) := by
    unfold by_height
    rw [foldl_cloud_step_fresh (resolveClouds ls) [] (by simp) hnd]
    simp
  show List.insertionSort height_le
      ((by_height (resolveClouds ls)).map Prod.snd) = resolveClouds ls
  rw [hbh, List.map_map]
  have hid : (Prod.snd ∘ fun l : CloudLayer => (l.height_ft, l)) = id := rfl
  rw [hid, List.map_id]
  exact List.Sorted.insertionSort_eq hs

/-- **C7** — cloud resolution groups by exact height (distinct heights in
the output, every input height represented), the surviving layer at each
height carries the maximal coverage rank among the elements at that height
(OVC/BKN > SCT > FEW), the output is sorted ascending by height, and
re-resolving the output reproduces it (idempotence; determinism is by
construction since the model is a pure function). -/
theorem c7_cloud_merge :
    ∀ (c : WeatherCollection) (rh : Option ℕ),
      List.Sorted height_le (c.resolve rh).clouds ∧
      ((c.resolve rh).clouds.map (fun l => l.height_ft)).Nodup ∧
      (∀ l ∈ (c.resolve rh).clouds,
        l ∈ c.cloudValues ∧
        ∀ e ∈ c.cloudValues, e.height_ft = l.height_ft →
          COVERAGE_RANK e.coverage ≤ COVERAGE_RANK l.coverage) ∧
      (∀ e ∈ c.cloudValues,
        ∃ l ∈ (c.resolve rh).clouds, l.height_ft = e.height_ft) ∧
      resolveClouds ((c.resolve rh).clouds) = (c.resolve rh).clouds := by
  intro c rh
  have hres : (c.resolve rh).clouds = resolveClouds c.cloudValues := rfl
  rw [hres]
  refine ⟨List.sorted_insertionSort height_le _,
    resolveClouds_heights_nodup _, ?_, ?_, resolveClouds_idempotent _⟩
  · intro l hl
    have hw := (mem_resolveClouds_winner c.cloudValues l).mp hl
    obtain ⟨h1, h2, h3⟩ := cloud_winner_spec c.cloudValues l.height_ft l hw
    exact ⟨h1, fun e he heh => h3 e he heh⟩
  · intro e he
    obtain ⟨w, hw⟩ := cloud_winner_total c.cloudValues e he
    obtain ⟨h1, h2, h3⟩ := cloud_winner_spec c.cloudValues e.height_ft w hw
    refine ⟨w, ?_, h2⟩
    rw [mem_resolveClouds_winner, h2]
    exact hw

/-- **C7 witness** — SCT and BKN at the same height 1000 ft resolve to the
single higher-ranked BKN layer; instantiating the height-grouping conjunct
yields `COVERAGE_RANK "SCT" ≤ COVERAGE_RANK "BKN"`. -/
theorem c7_witness :
    ((WeatherCollection.resolve
        ⟨[⟨.cloud ⟨"SCT", 1000, false⟩, "METAR", none, none⟩,
          ⟨.cloud ⟨"BKN", 1000, false⟩, "METAR", none, none⟩]⟩ none).clouds.map
      (fun l => l.height_ft)).Nodup ∧
    COVERAGE_RANK "SCT" ≤ COVERAGE_RANK "BKN" := by
  obtain ⟨hs, hnd, hmax, htot, hid⟩ := c7_cloud_merge
    ⟨[⟨.cloud ⟨"SCT", 1000, false⟩, "METAR", none, none⟩,
      ⟨.cloud ⟨"BKN", 1000, false⟩, "METAR", none, none⟩]⟩ none
  refine ⟨hnd, ?_⟩
  have hmem : (⟨"BKN", 1000, false⟩ : CloudLayer) ∈
      (WeatherCollection.resolve
        ⟨[⟨.cloud ⟨"SCT", 1000, false⟩, "METAR", none, none⟩,
          ⟨.cloud ⟨"BKN", 1000, false⟩, "METAR", none, none⟩]⟩ none).clouds := by
    show (⟨"BKN", 1000, false⟩ : CloudLayer) ∈ resolveClouds
      (WeatherCollection.cloudValues
        ⟨[⟨.cloud ⟨"SCT", 1000, false⟩, "METAR", none, none⟩,
          ⟨.cloud ⟨"BKN", 1000, false⟩, "METAR", none, none⟩]⟩)
    decide
  obtain ⟨_, hrank⟩ := hmax ⟨"BKN", 1000, false⟩ hmem
  exact hrank ⟨"SCT", 1000, false⟩ (by decide) rfl

/-- **C10** — `BKN` and `OVC` share coverage rank 3, and a stored layer is
replaced only on strictly greater rank, so when exactly two cloud elements
share a height and both are `BKN`/`OVC` (in either order), the first one in
the collection supplies the surviving layer — a later `OVC` never replaces
an earlier `BKN` at the same height, and vice versa. -/
theorem c10_equal_rank_first_wins :
    COVERAGE_RANK "BKN" = COVERAGE_RANK "OVC" ∧
    ∀ (c : WeatherCollection) (rh : Option ℕ) (h : ℕ) (e1 e2 : CloudLayer),
      c.cloudValues.filter (fun e => e.height_ft == h) = [e1, e2] →
      (e1.coverage = "BKN" ∨ e1.coverage = "OVC") →
      (e2.coverage = "BKN" ∨ e2.coverage = "OVC") →
      e1 ∈ (c.resolve rh).clouds ∧
      ∀ l ∈ (c.resolve rh).clouds, l.height_ft = h → l = e1 := by
  refine ⟨rfl, ?_⟩
  intro c rh h e1 e2 hfil hc1 hc2
  have hr1 : COVERAGE_RANK e1.coverage = 3 := by
    rcases hc1 with h1 | h1 <;> simp [COVERAGE_RANK, h1]
  have hr2 : COVERAGE_RANK e2.coverage = 3 := by
    rcases hc2 with h2 | h2 <;> simp [COVERAGE_RANK, h2]
  have he1 : e1.height_ft = h := by
    have : e1 ∈ c.cloudValues.filter (fun e => e.height_ft == h) := by
      rw [hfil]
      exact List.mem_cons_self e1 [e2]
    simpa using (List.mem_filter.mp this).2
  have hwin : cloud_winner h c.cloudValues = some e1 := by
    unfold cloud_winner
    rw [hfil]
    dsimp only
    rw [rank_upgrade_cons, if_neg (by rw [hr1, hr2]; exact lt_irrefl 3)]
    rfl
  have hres : (c.resolve rh).clouds = resolveClouds c.cloudValues := rfl
  constructor
  · rw [hres, mem_resolveClouds_winner, he1]
    exact hwin
  · intro l hl hlh
    rw [hres] at hl
    have hw := (mem_resolveClouds_winner c.cloudValues l).mp hl
    rw [hlh, hwin] at hw
    injection hw with hw'
    exact hw'.symm

/-- **C10 witness** — BKN then OVC at 2000 ft: the earlier BKN layer
survives. -/
theorem c10_witness :
    (⟨"BKN", 2000, false⟩ : CloudLayer) ∈
      (WeatherCollection.resolve
        ⟨[⟨.cloud ⟨"BKN", 2000, false⟩, "METAR", none, none⟩,
          ⟨.cloud ⟨"OVC", 2000, true⟩, "METAR", none, none⟩]⟩ none).clouds :=
  (c10_equal_rank_first_wins.2
    ⟨[⟨.cloud ⟨"BKN", 2000, false⟩, "METAR", none, none⟩,
      ⟨.cloud ⟨"OVC", 2000, true⟩, "METAR", none, none⟩]⟩ none 2000
    ⟨"BKN", 2000, false⟩ ⟨"OVC", 2000, true⟩ (by decide) (Or.inl rfl)
    (Or.inr rfl)).1

/-- Cloud values of a collection come from cloud-valued elements. -/
theorem mem_cloudValues (c : WeatherCollection) (l : CloudLayer)
    (hl : l ∈ c.cloudValues) : ∃ el ∈ c.elements, el.value = .cloud l := by
  obtain ⟨el, hel, hfe⟩ := List.mem_filterMap.mp hl
  refine ⟨el, hel, ?_⟩
  cases hv : el.value <;> rw [hv] at hfe <;> simp at hfe
  rw [hfe]

/-- Weather codes of a collection come from weather-valued elements. -/
theorem mem_weatherCodes (c : WeatherCollection) (code : String)
    (hc : code ∈ c.weatherCodes) : ∃ el ∈ c.elements, el.value = .wx code := by
  obtain ⟨el, hel, hfe⟩ := List.mem_filterMap.mp hc
  refine ⟨el, hel, ?_⟩
  cases hv : el.value <;> rw [hv] at hfe <;> simp at hfe
  rw [hfe]

/-- **C4 counterexample** — the claim as stated fails for a forecast CB
*cloud* element: with a TAF `SCT 1000 CB` layer and a METAR `BKN 1000`
layer, the only CB element comes from the forecast source and overlaps the
(open) window, the alternate-scope filter keeps both elements, yet the
same-height merge replaces the stored CB layer with the strictly
higher-ranked non-CB one, and the alternate-scope `has_cb` stays `false`. -/
theorem c4_counterexample :
    ((⟨[⟨.cloud ⟨"SCT", 1000, true⟩, "TAF", none, none⟩,
        ⟨.cloud ⟨"BKN", 1000, false⟩, "METAR", none, none⟩]⟩ :
      WeatherCollection)).elements.all
      (fun el => !is_cb_contributor el || el.source == "TAF") = true ∧
    WeatherElement.overlaps_window
      ⟨.cloud ⟨"SCT", 1000, true⟩, "TAF", none, none⟩ none none = true ∧
    ((WeatherCollection.filter
        ⟨[⟨.cloud ⟨"SCT", 1000, true⟩, "TAF", none, none⟩,
          ⟨.cloud ⟨"BKN", 1000, false⟩, "METAR", none, none⟩]⟩ none none
        (some ALTERNATE_SOURCES)).resolve none).has_cb = false := by
  refine ⟨by decide, by decide, ?_⟩
  show ((resolveClouds (WeatherCollection.filter
      ⟨[⟨.cloud ⟨"SCT", 1000, true⟩, "TAF", none, none⟩,
        ⟨.cloud ⟨"BKN", 1000, false⟩, "METAR", none, none⟩]⟩ none none
      (some ALTERNATE_SOURCES)).cloudValues).any (fun l => l.cb) ||
    (WeatherCollection.filter
      ⟨[⟨.cloud ⟨"SCT", 1000, true⟩, "TAF", none, none⟩,
        ⟨.cloud ⟨"BKN", 1000, false⟩, "METAR", none, none⟩]⟩ none none
      (some ALTERNATE_SOURCES)).weatherCodes.any is_cb_code) = false
  decide

/-- **C4 (amended)** — the "phase" source scope drops every TAF element, so
a CB element present only from the forecast never sets `has_cb` of a
phase-scope resolution.  The "alternate" scope keeps TAF elements, so a TAF
CB *weather-code* element in the window always sets `has_cb` there, and a
TAF CB *cloud* element in the window sets it exactly when its layer
survives the same-height coverage merge — a strictly higher-ranked non-CB
element at the same height replaces the stored layer dict and discards the
flag (the counterexample above). -/
theorem c4_scope_cb_amended :
    ∀ (c : WeatherCollection) (ws we : Option ℕ) (rh : Option ℕ),
      (∀ el ∈ (c.filter ws we (some PHASE_SOURCES)).elements,
        el.source ≠ "TAF") ∧
      ((∀ el ∈ c.elements, is_cb_contributor el = true → el.source = "TAF") →
        ((c.filter ws we (some PHASE_SOURCES)).resolve rh).has_cb = false) ∧
      (∀ el ∈ c.elements, el.source = "TAF" →
        (∃ code, el.value = .wx code ∧ is_cb_code code = true) →
        el.overlaps_window ws we = true →
        ((c.filter ws we (some ALTERNATE_SOURCES)).resolve rh).has_cb = true) ∧
      (∀ el ∈ c.elements, ∀ cl : CloudLayer, el.source = "TAF" →
        el.value = .cloud cl → cl.cb = true →
        el.overlaps_window ws we = true →
        cl ∈ ((c.filter ws we (some ALTERNATE_SOURCES)).resolve rh).clouds →
        ((c.filter ws we (some ALTERNATE_SOURCES)).resolve rh).has_cb = true) := by
  intro c ws we rh
  have hsrc : ∀ el ∈ (c.filter ws we (some PHASE_SOURCES)).elements,
      el.source ≠ "TAF" := by
    intro el hel hTAF
    have hp := (List.mem_filter.mp hel).2
    simp only [Bool.and_eq_true, decide_eq_true_eq] at hp
    rw [hTAF] at hp
    simp [PHASE_SOURCES] at hp
  refine ⟨hsrc, ?_, ?_, ?_⟩
  · intro hTAFonly
    have hnc : ∀ el ∈ (c.filter ws we (some PHASE_SOURCES)).elements,
        is_cb_contributor el = false := by
      intro el hel
      cases hcb : is_cb_contributor el with
      | false => rfl
      | true =>
        exfalso
        have helc : el ∈ c.elements := (List.mem_filter.mp hel).1
        exact hsrc el hel (hTAFonly el helc hcb)
    have hres : ((c.filter ws we (some PHASE_SOURCES)).resolve rh).has_cb =
        ((resolveClouds (c.filter ws we (some PHASE_SOURCES)).cloudValues).any
          (fun l => l.cb) ||
         (c.filter ws we (some PHASE_SOURCES)).weatherCodes.any is_cb_code) := rfl
    rw [hres]
    have h1 : (resolveClouds
        (c.filter ws we (some PHASE_SOURCES)).cloudValues).any
        (fun l => l.cb) = false := by
      cases hany : (resolveClouds
          (c.filter ws we (some PHASE_SOURCES)).cloudValues).any
          (fun l => l.cb) with
      | false => rfl
      | true =>
        exfalso
        obtain ⟨l, hl, hlcb⟩ := List.any_eq_true.mp hany
        have hlv := resolveClouds_subset _ l hl
        obtain ⟨el, hel, hev⟩ := mem_cloudValues _ l hlv
        have : is_cb_contributor el = true := by
          unfold is_cb_contributor
          rw [hev]
          exact hlcb
        rw [hnc el hel] at this
        cases this
    have h2 : (c.filter ws we (some PHASE_SOURCES)).weatherCodes.any
        is_cb_code = false := by
      cases hany : (c.filter ws we (some PHASE_SOURCES)).weatherCodes.any
          is_cb_code with
      | false => rfl
      | true =>
        exfalso
        obtain ⟨code, hc', hccb⟩ := List.any_eq_true.mp hany
        obtain ⟨el, hel, hev⟩ := mem_weatherCodes _ code hc'
        have : is_cb_contributor el = true := by
          unfold is_cb_contributor
          rw [hev]
          exact hccb
        rw [hnc el hel] at this
        cases this
    rw [h1, h2]
    rfl
  · intro el hel hTAF hcode hov
    obtain ⟨code, hev, hcb⟩ := hcode
    have hmem : el ∈ (c.filter ws we (some ALTERNATE_SOURCES)).elements := by
      apply List.mem_filter.mpr
      refine ⟨hel, ?_⟩
      simp only [Bool.and_eq_true, decide_eq_true_eq]
      exact ⟨hov, by rw [hTAF]; simp [ALTERNATE_SOURCES]⟩
    have hcodes : code ∈ (c.filter ws we (some ALTERNATE_SOURCES)).weatherCodes := by
      apply List.mem_filterMap.mpr
      exact ⟨el, hmem, by rw [hev]⟩
    have hany : (c.filter ws we (some ALTERNATE_SOURCES)).weatherCodes.any
        is_cb_code = true :=
      List.any_eq_true.mpr ⟨code, hcodes, hcb⟩
    have hres : ((c.filter ws we (some ALTERNATE_SOURCES)).resolve rh).has_cb =
        ((resolveClouds (c.filter ws we (some ALTERNATE_SOURCES)).cloudValues).any
          (fun l => l.cb) ||
         (c.filter ws we (some ALTERNATE_SOURCES)).weatherCodes.any
           is_cb_code) := rfl
    rw [hres, hany]
    exact Bool.or_true _
  · intro el hel cl hTAF hev hcb hov hsurv
    have hsurv' : cl ∈ resolveClouds
        (c.filter ws we (some ALTERNATE_SOURCES)).cloudValues := hsurv
    have hany : (resolveClouds
        (c.filter ws we (some ALTERNATE_SOURCES)).cloudValues).any
        (fun l => l.cb) = true :=
      List.any_eq_true.mpr ⟨cl, hsurv', hcb⟩
    have hres : ((c.filter ws we (some ALTERNATE_SOURCES)).resolve rh).has_cb =
        ((resolveClouds (c.filter ws we (some ALTERNATE_SOURCES)).cloudValues).any
          (fun l => l.cb) ||
         (c.filter ws we (some ALTERNATE_SOURCES)).weatherCodes.any
           is_cb_code) := rfl
    rw [hres, hany]
    rfl

/-- **C4 witness** — a single TAF `CB` weather element resolves with
`has_cb = false` under the phase scope and `has_cb = true` under the
alternate scope; a sole TAF CB cloud layer (which survives the merge
unopposed) also sets the alternate flag. -/
theorem c4_witness :
    ((WeatherCollection.filter ⟨[⟨.wx "CB", "TAF", none, none⟩]⟩ none none
      (some PHASE_SOURCES)).resolve none).has_cb = false ∧
    ((WeatherCollection.filter ⟨[⟨.wx "CB", "TAF", none, none⟩]⟩ none none
      (some ALTERNATE_SOURCES)).resolve none).has_cb = true ∧
    ((WeatherCollection.filter
      ⟨[⟨.cloud ⟨"SCT", 1000, true⟩, "TAF", none, none⟩]⟩ none none
      (some ALTERNATE_SOURCES)).resolve none).has_cb = true := by
  obtain ⟨hs1, hphase1, halt1, hcl1⟩ :=
    c4_scope_cb_amended ⟨[⟨.wx "CB", "TAF", none, none⟩]⟩ none none none
  obtain ⟨hs2, hphase2, halt2, hcl2⟩ :=
    c4_scope_cb_amended ⟨[⟨.cloud ⟨"SCT", 1000, true⟩, "TAF", none, none⟩]⟩
      none none none
  refine ⟨hphase1 (by decide),
    halt1 ⟨.wx "CB", "TAF", none, none⟩ (by decide) rfl
      ⟨"CB", rfl, by decide⟩ rfl, ?_⟩
  apply hcl2 ⟨.cloud ⟨"SCT", 1000, true⟩, "TAF", none, none⟩ (by decide)
    ⟨"SCT", 1000, true⟩ rfl rfl rfl rfl
  show (⟨"SCT", 1000, true⟩ : CloudLayer) ∈ resolveClouds
    (WeatherCollection.cloudValues (WeatherCollection.filter
      ⟨[⟨.cloud ⟨"SCT", 1000, true⟩, "TAF", none, none⟩]⟩ none none
      (some ALTERNATE_SOURCES)))
  decide
